import Mathlib

/-!
Verification of the conversation-session logic of `src/app.py`: the request
builder (`build_input_parts`), the submission handler (module top level,
lines 162-207), the Clear Conversation handler, and the startup configuration
warnings. Python values are shallowly embedded: dictionaries with fixed keys
become structures, the `str`-or-`list` message content becomes a tagged
variant, exceptions become `Except`, and `None`-able strings become
`Option String`.
-/

/-- One content part inside a user message, as built by `build_input_parts`
(src/app.py lines 85-95): either an `input_text` dict carrying text or an
`input_image` dict carrying a data-URL string. -/
inductive ContentPart where
  | input_text (text : String) : ContentPart
  | input_image (image_url : String) : ContentPart
  deriving DecidableEq, Repr

/-- The message wrapper produced by `build_input_parts` (src/app.py line 96):
a dict with keys "type", "role" and "content". -/
structure Message where
  type : String
  role : String
  content : List ContentPart
  deriving DecidableEq, Repr

/-- An uploaded file as delivered by the upload widget: `f.type` is the MIME
type (absent or empty when the source supplied none) and `data` the raw bytes
returned by `f.read()` (src/app.py lines 164-170), each byte a `Nat` below
256. -/
structure UploadedFile where
  type : Option String
  data : List Nat
  deriving DecidableEq, Repr

/-- Python `s or d` on an optional string: the default replaces both `None`
and the empty string, mirroring `f.type or "image/png"` at src/app.py
line 167. -/
def pyStrOr (s : Option String) (d : String) : String :=
  match s with
  | none => d
  | some t => if t = "" then d else t

/-- The standard base64 alphabet. -/
def base64Chars : List Char :=
  [ 'A', 'B', 'C', 'D', 'E', 'F', 'G', 'H', 'I', 'J', 'K', 'L', 'M',
    'N', 'O', 'P', 'Q', 'R', 'S', 'T', 'U', 'V', 'W', 'X', 'Y', 'Z',
    'a', 'b', 'c', 'd', 'e', 'f', 'g', 'h', 'i', 'j', 'k', 'l', 'm',
    'n', 'o', 'p', 'q', 'r', 's', 't', 'u', 'v', 'w', 'x', 'y', 'z',
    '0', '1', '2', '3', '4', '5', '6', '7', '8', '9', '+', '/' ]

/-- Character for one 6-bit group. -/
def b64Char (n : Nat) : Char := base64Chars.getD n 'A'

/-- Base64-encode a byte list, three input bytes to four output characters,
with `'='` padding, as `base64.b64encode` does (src/app.py line 167). -/
def b64EncodeChars : List Nat → List Char
  | [] => []
  | [a] =>
      [b64Char (a / 4), b64Char (a % 4 * 16), '=', '=']
  | [a, b] =>
      [b64Char (a / 4), b64Char (a % 4 * 16 + b / 16), b64Char (b % 16 * 4), '=']
  | a :: b :: c :: rest =>
      b64Char (a / 4) :: b64Char (a % 4 * 16 + b / 16) ::
        b64Char (b % 16 * 4 + c / 64) :: b64Char (c % 64) :: b64EncodeChars rest

/-- `base64.b64encode(bytes).decode("utf-8")` as a string. -/
def b64encode (bytes : List Nat) : String := String.mk (b64EncodeChars bytes)

/-- The image dict built by the submission handler (src/app.py lines
164-170): `mime` and a `data_url` of the form
`data:<mime>;base64,<base64(bytes)>`. -/
structure ImageDict where
  mime : String
  data_url : String
  deriving DecidableEq, Repr

/-- The per-file comprehension of src/app.py lines 164-170. -/
def processImage (f : UploadedFile) : ImageDict :=
  { mime := pyStrOr f.type "image/png"
    data_url :=
      "data:" ++ pyStrOr f.type "image/png" ++ ";base64," ++ b64encode f.data }

/-- Python `text.strip()`: drop whitespace from both ends, written over the
character list so that it evaluates by kernel reduction. -/
def pyStrip (s : String) : String :=
  String.mk (((s.toList.dropWhile Char.isWhitespace).reverse.dropWhile
    Char.isWhitespace).reverse)

/-- `build_input_parts` (src/app.py lines 74-96): an `input_text` part when
the text is non-empty after stripping, then one `input_image` part per image
in order, wrapped in a single user message; the empty list when there is no
content at all. -/
def build_input_parts (text : String) (images : List ImageDict) : List Message :=
  let content : List ContentPart :=
    (if text ≠ "" ∧ pyStrip text ≠ "" then [ContentPart.input_text (pyStrip text)] else [])
      ++ images.map (fun img => ContentPart.input_image img.data_url)
  if content = [] then [] else [{ type := "message", role := "user", content := content }]

theorem pyStrip_empty : pyStrip "" = "" := rfl

theorem build_input_parts_closed_form (text : String) (images : List ImageDict) :
    build_input_parts text images =
      if pyStrip text = "" ∧ images = [] then []
      else [{ type := "message", role := "user",
              content :=
                (if pyStrip text = "" then [] else [ContentPart.input_text (pyStrip text)])
                  ++ images.map (fun img => ContentPart.input_image img.data_url) }] := by
  by_cases ht : pyStrip text = ""
  · have htext : ¬(text ≠ "" ∧ pyStrip text ≠ "") := by
      intro h
      exact h.2 ht
    by_cases hi : images = []
    · subst hi
      simp [build_input_parts, ht, htext]
    · simp [build_input_parts, ht, htext, hi]
  · have hne : text ≠ "" := by
      intro h
      subst h
      exact ht pyStrip_empty
    simp [build_input_parts, ht, hne]

/-- Claim C1: for every text string and ordered image list, the builder
pipeline (the data-URL comprehension of lines 164-170 followed by
`build_input_parts`) produces the empty list exactly when the text strips to
empty and no image was uploaded, and otherwise a single user message whose
content starts with the stripped text (exactly when the text strips to
non-empty) followed by one image part per upload, in upload order, each
referencing `data:<mime>;base64,<base64(bytes)>` with the MIME type
defaulting to `image/png` when the source supplied none. -/
theorem build_parts_spec (text : String) (files : List UploadedFile) :
    (build_input_parts text (files.map processImage) = [] ↔
      pyStrip text = "" ∧ files = []) ∧
    build_input_parts text (files.map processImage) =
      (if pyStrip text = "" ∧ files = [] then []
       else [{ type := "message", role := "user",
               content :=
                 (if pyStrip text = "" then [] else [ContentPart.input_text (pyStrip text)])
                   ++ files.map (fun f => ContentPart.input_image
                       ("data:" ++ pyStrOr f.type "image/png" ++ ";base64," ++
                         b64encode f.data)) }]) := by
  have hcond : (pyStrip text = "" ∧ files.map processImage = []) ↔
      (pyStrip text = "" ∧ files = []) := by
    rw [List.map_eq_nil_iff]
  rw [build_input_parts_closed_form]
  constructor
  · by_cases hc : pyStrip text = "" ∧ files = []
    · rw [if_pos (hcond.mpr hc)]
      simp [hc]
    · rw [if_neg (fun h => hc (hcond.mp h))]
      simp [hc]
  · by_cases hc : pyStrip text = "" ∧ files = []
    · rw [if_pos (hcond.mpr hc), if_pos hc]
    · rw [if_neg (fun h => hc (hcond.mp h)), if_neg hc]
      simp [List.map_map, Function.comp, processImage]

/-- The provider response as probed by the handler: `output_text` (src/app.py
line 127) and the continuation identifier; `id := none` models
`hasattr(response, "id")` being false (src/app.py line 203). -/
structure Response where
  output_text : String
  id : Option String
  deriving DecidableEq, Repr

/-- `get_text_output` (src/app.py lines 123-127). -/
def get_text_output (response : Response) : String := response.output_text

/-- A stored message's `content` field, which the source stores either as a
plain string (src/app.py lines 176 and 200) or, in the shapes tolerated by
the rendering loop (lines 134-147), as a parts list. -/
inductive TurnContent where
  | str (s : String) : TurnContent
  | parts (ps : List Message) : TurnContent
  deriving DecidableEq, Repr

/-- One entry of `st.session_state.messages`: a dict with "role" and
"content". -/
structure Turn where
  role : String
  content : TurnContent
  deriving DecidableEq, Repr

/-- The session state the handler mutates: `st.session_state.messages` and
`st.session_state.previous_response_id` (src/app.py lines 55-60). -/
structure SessionState where
  messages : List Turn
  previous_response_id : Option String
  deriving DecidableEq, Repr

/-- What the submission block reports to the user: the rendered answer on
success, or the `st.error` message on exception (src/app.py lines 199,
207). -/
inductive SubmitOutcome where
  | success (text : String) : SubmitOutcome
  | failure (err : String) : SubmitOutcome
  deriving DecidableEq, Repr

/-- One remote call as issued by `call_responses_api`: the `input` parts and
the `previous_response_id` argument (src/app.py lines 102-119). -/
abbrev RemoteCall := List Message × Option String

/-- The module top-level submission handler (src/app.py lines 162-207), as a
function of the prior session state, the prompt and the uploaded files. The
remote call is a parameter `call` (its outcome is the environment's choice);
the third component of the result records the remote calls issued, in order,
with the `previous_response_id` each was given. Mirrors the source exactly:
the images are processed (lines 164-170), the parts built (line 173), the
user message appended with the plain prompt string (line 176), then the call
is issued unconditionally (line 195); on success the assistant message is
appended with the output text (line 200) and `previous_response_id` is
overwritten only when the response has an `id` (lines 203-204); on exception
the error is shown and no further state changes happen (lines 206-207). -/
def submitTurn (call : List Message → Option String → Except String Response)
    (state : SessionState) (prompt : String) (uploaded : List UploadedFile) :
    SessionState × SubmitOutcome × List RemoteCall :=
  let images := uploaded.map processImage
  let parts := build_input_parts prompt images
  let afterUser : SessionState :=
    { state with
      messages := state.messages ++ [{ role := "user", content := TurnContent.str prompt }] }
  match call parts state.previous_response_id with
  | Except.ok response =>
      let output_text := get_text_output response
      let afterAssistant : SessionState :=
        { afterUser with
          messages := afterUser.messages ++
            [{ role := "assistant", content := TurnContent.str output_text }] }
      let final : SessionState :=
        match response.id with
        | some rid => { afterAssistant with previous_response_id := some rid }
        | none => afterAssistant
      (final, SubmitOutcome.success output_text, [(parts, state.previous_response_id)])
  | Except.error e =>
      (afterUser, SubmitOutcome.failure e, [(parts, state.previous_response_id)])

/-- The Clear Conversation handler (src/app.py lines 67-72): empties the
message list and clears the stored response id; it consults nothing else and
issues no remote call. -/
def reset (_state : SessionState) : SessionState :=
  { messages := [], previous_response_id := none }

/-- Claim C2: when the remote call succeeds, the new history is the old one
extended by exactly the user turn (the prompt, stored as a plain string) and
then the assistant turn carrying the extracted output text; the outcome is
that text; and whenever the response carries an identifier, the stored
`previous_response_id` becomes exactly that identifier. -/
theorem submitTurn_success (call : List Message → Option String → Except String Response)
    (state : SessionState) (prompt : String) (uploaded : List UploadedFile)
    (response : Response)
    (h : call (build_input_parts prompt (uploaded.map processImage))
      state.previous_response_id = Except.ok response) :
    (submitTurn call state prompt uploaded).1.messages =
      state.messages ++
        [{ role := "user", content := TurnContent.str prompt },
         { role := "assistant", content := TurnContent.str (get_text_output response) }] ∧
    (submitTurn call state prompt uploaded).2.1 =
      SubmitOutcome.success (get_text_output response) ∧
    ∀ rid : String, response.id = some rid →
      (submitTurn call state prompt uploaded).1.previous_response_id = some rid := by
  refine ⟨?_, ?_, ?_⟩
  · simp only [submitTurn, h]
    cases hid : response.id <;> simp
  · simp only [submitTurn, h]
  · intro rid hrid
    simp only [submitTurn, h, hrid]

/-- A remote call that always succeeds with answer "ans" and identifier
"resp_1", for concrete instantiation. -/
def okCallC2 : List Message → Option String → Except String Response :=
  fun _ _ => Except.ok { output_text := "ans", id := some "resp_1" }

theorem submitTurn_success_witness :
    (submitTurn okCallC2 { messages := [], previous_response_id := none } "hi" []).1.messages =
      [{ role := "user", content := TurnContent.str "hi" },
       { role := "assistant", content := TurnContent.str "ans" }] ∧
    (submitTurn okCallC2 { messages := [], previous_response_id := none } "hi" []).2.1 =
      SubmitOutcome.success "ans" ∧
    (submitTurn okCallC2 { messages := [], previous_response_id := none } "hi"
      []).1.previous_response_id = some "resp_1" := by
  have h := submitTurn_success okCallC2 { messages := [], previous_response_id := none } "hi" []
    { output_text := "ans", id := some "resp_1" } rfl
  exact ⟨by simpa [get_text_output] using h.1, by simpa [get_text_output] using h.2.1,
    h.2.2 "resp_1" rfl⟩

/-- Claim C3: when the remote call raises, the handler had already appended
the user turn (the new history is the old one plus exactly that turn, one
entry longer), the remote call was indeed issued with the pre-call
`previous_response_id`, the stored `previous_response_id` is unchanged, and
the failure surfaces as the `st.error` outcome value rather than escaping
(the handler is a total function whose failure branch yields
`SubmitOutcome.failure`). -/
theorem submitTurn_failure (call : List Message → Option String → Except String Response)
    (state : SessionState) (prompt : String) (uploaded : List UploadedFile) (e : String)
    (h : call (build_input_parts prompt (uploaded.map processImage))
      state.previous_response_id = Except.error e) :
    (submitTurn call state prompt uploaded).1.messages =
      state.messages ++ [{ role := "user", content := TurnContent.str prompt }] ∧
    (submitTurn call state prompt uploaded).1.messages.length =
      state.messages.length + 1 ∧
    (submitTurn call state prompt uploaded).1.previous_response_id =
      state.previous_response_id ∧
    (submitTurn call state prompt uploaded).2.2 =
      [(build_input_parts prompt (uploaded.map processImage),
        state.previous_response_id)] ∧
    (submitTurn call state prompt uploaded).2.1 = SubmitOutcome.failure e := by
  refine ⟨?_, ?_, ?_, ?_, ?_⟩ <;> simp [submitTurn, h]

/-- A remote call that always fails, for concrete instantiation. -/
def failCall : List Message → Option String → Except String Response :=
  fun _ _ => Except.error "network down"

theorem submitTurn_failure_witness :
    (submitTurn failCall { messages := [], previous_response_id := some "resp_0" }
        "hi" []).1.messages =
      [{ role := "user", content := TurnContent.str "hi" }] ∧
    (submitTurn failCall { messages := [], previous_response_id := some "resp_0" }
        "hi" []).1.previous_response_id = some "resp_0" ∧
    (submitTurn failCall { messages := [], previous_response_id := some "resp_0" }
        "hi" []).2.1 = SubmitOutcome.failure "network down" := by
  have h := submitTurn_failure failCall
    { messages := [], previous_response_id := some "resp_0" } "hi" [] "network down" rfl
  exact ⟨by simpa using h.1, h.2.2.1, h.2.2.2.2⟩

/-- Claim C7: the Clear Conversation handler maps every state to the state
with empty history and no continuation token; in particular it always
succeeds, involves no remote call (its definition takes no call argument),
and it is idempotent. -/
theorem reset_spec (s : SessionState) :
    reset s = { messages := [], previous_response_id := none } ∧
    (reset s).messages = [] ∧
    (reset s).previous_response_id = none ∧
    reset (reset s) = reset s :=
  ⟨rfl, rfl, rfl, rfl⟩

theorem submitTurn_trace (call : List Message → Option String → Except String Response)
    (state : SessionState) (prompt : String) (uploaded : List UploadedFile) :
    (submitTurn call state prompt uploaded).2.2 =
      [(build_input_parts prompt (uploaded.map processImage),
        state.previous_response_id)] := by
  cases hc : call (build_input_parts prompt (uploaded.map processImage))
      state.previous_response_id <;>
    simp [submitTurn, hc]

theorem submitTurn_messages_shape (call : List Message → Option String → Except String Response)
    (state : SessionState) (prompt : String) (uploaded : List UploadedFile) :
    (submitTurn call state prompt uploaded).1.messages =
      state.messages ++ [{ role := "user", content := TurnContent.str prompt }] ∨
    ∃ s, (submitTurn call state prompt uploaded).2.1 = SubmitOutcome.success s ∧
      (submitTurn call state prompt uploaded).1.messages =
        state.messages ++
          [{ role := "user", content := TurnContent.str prompt },
           { role := "assistant", content := TurnContent.str s }] := by
  cases hc : call (build_input_parts prompt (uploaded.map processImage))
      state.previous_response_id with
  | ok response =>
      refine Or.inr ⟨get_text_output response, ?_, ?_⟩
      · simp only [submitTurn, hc]
      · simp only [submitTurn, hc]
        cases response.id <;> simp
  | error e =>
      exact Or.inl (by simp [submitTurn, hc])

theorem submitTurn_appends_user (call : List Message → Option String → Except String Response)
    (state : SessionState) (prompt : String) (uploaded : List UploadedFile) :
    ∃ rest, (submitTurn call state prompt uploaded).1.messages =
      state.messages ++ { role := "user", content := TurnContent.str prompt } :: rest := by
  rcases submitTurn_messages_shape call state prompt uploaded with h | ⟨s, _, h⟩
  · exact ⟨[], h⟩
  · exact ⟨[{ role := "assistant", content := TurnContent.str s }], h⟩

/-- Claim C4, counterexample: on the whitespace-only prompt " " with no
images, `build_input_parts` does return the empty list, but the handler is
not a no-op — a remote call is still issued (the call trace is non-empty)
and the state changes (the user turn is appended). The claim's "no remote
call is issued and the state is returned unchanged" is false on the code. -/
theorem submitTurn_empty_not_noop :
    build_input_parts " " ([] : List ImageDict) = [] ∧
    (submitTurn failCall { messages := [], previous_response_id := none } " " []).2.2 ≠
      [] ∧
    (submitTurn failCall { messages := [], previous_response_id := none } " " []).1 ≠
      { messages := [], previous_response_id := none } :=
  ⟨by decide, by decide, by decide⟩

/-- Claim C4 as amended: when the text strips to empty and no images were
uploaded, `build_input_parts` returns the empty sequence, but the handler is
not a no-op: it still appends the user turn (the raw prompt, as a plain
string) to history and still issues the remote call, passing the empty parts
list as input. -/
theorem submitTurn_empty_submission (call : List Message → Option String → Except String Response)
    (state : SessionState) (prompt : String) (h : pyStrip prompt = "") :
    build_input_parts prompt (List.map processImage []) = [] ∧
    (submitTurn call state prompt []).2.2 = [([], state.previous_response_id)] ∧
    ∃ rest, (submitTurn call state prompt []).1.messages =
      state.messages ++ { role := "user", content := TurnContent.str prompt } :: rest := by
  have hp : build_input_parts prompt (List.map processImage []) = [] := by
    rw [build_input_parts_closed_form]
    simp [h]
  refine ⟨hp, ?_, submitTurn_appends_user call state prompt []⟩
  have := submitTurn_trace call state prompt []
  rw [this, hp]

theorem submitTurn_empty_submission_witness :
    build_input_parts " " (List.map processImage []) = [] ∧
    (submitTurn failCall { messages := [], previous_response_id := some "resp_0" }
        " " []).2.2 = [([], some "resp_0")] ∧
    ∃ rest,
      (submitTurn failCall { messages := [], previous_response_id := some "resp_0" }
          " " []).1.messages =
        { role := "user", content := TurnContent.str " " } :: rest := by
  have h := submitTurn_empty_submission failCall
    { messages := [], previous_response_id := some "resp_0" } " " (by decide)
  exact ⟨h.1, h.2.1, h.2.2⟩

/-- Claim C5: across consecutive submissions, the `previous_response_id`
passed into the next remote call is exactly the identifier extracted from
the previous successful response (whenever that response carried one), and a
failed call never rolls the stored token back — it stays what it was before
the failed call. Stated for an arbitrary starting state, this covers every
adjacent pair in any sequence of consecutive successful calls. -/
theorem continuation_token_chaining
    (call : List Message → Option String → Except String Response)
    (s : SessionState) (p1 : String) (u1 : List UploadedFile)
    (p2 : String) (u2 : List UploadedFile) (r1 : Response) (t1 : String)
    (h1 : call (build_input_parts p1 (u1.map processImage))
      s.previous_response_id = Except.ok r1)
    (hid : r1.id = some t1) :
    (submitTurn call (submitTurn call s p1 u1).1 p2 u2).2.2 =
      [(build_input_parts p2 (u2.map processImage), some t1)] ∧
    ∀ p3 u3 e, call (build_input_parts p3 (List.map processImage u3))
        s.previous_response_id = Except.error e →
      (submitTurn call s p3 u3).1.previous_response_id = s.previous_response_id := by
  constructor
  · rw [submitTurn_trace]
    have htok : (submitTurn call s p1 u1).1.previous_response_id = some t1 := by
      simp only [submitTurn, h1, hid]
    rw [htok]
  · intro p3 u3 e he
    exact (submitTurn_failure call s p3 u3 e he).2.2.1

theorem continuation_token_chaining_witness :
    (submitTurn okCallC2
        (submitTurn okCallC2 { messages := [], previous_response_id := none } "a" []).1
        "b" []).2.2 =
      [(build_input_parts "b" (List.map processImage []), some "resp_1")] :=
  (continuation_token_chaining okCallC2 { messages := [], previous_response_id := none }
    "a" [] "b" [] { output_text := "ans", id := some "resp_1" } "resp_1" rfl rfl).1

/-- Claim C6, counterexample: submitting the prompt "look" with one uploaded
image appends a user turn whose content is the plain string "look" — not the
content-part sequence produced by the request builder (which here contains
an image part). The claim that the history user turn records the
provider-facing parts is false on the code: line 176 of src/app.py stores
the raw prompt string. -/
theorem history_user_turn_not_parts :
    (submitTurn okCallC2 { messages := [], previous_response_id := none } "look"
        [{ type := some "image/png", data := [1, 2, 3] }]).1.messages.head? =
      some { role := "user", content := TurnContent.str "look" } ∧
    TurnContent.str "look" ≠
      TurnContent.parts (build_input_parts "look"
        (List.map processImage [{ type := some "image/png", data := [1, 2, 3] }])) :=
  ⟨by decide, by decide⟩

/-- Claim C6 as amended: the user Turn appended to history carries the raw
prompt as a plain string; the provider-facing content-part sequence
(including any image parts) is sent on the remote call but is not what the
history user Turn records. -/
theorem submitTurn_user_turn_content
    (call : List Message → Option String → Except String Response)
    (state : SessionState) (prompt : String) (uploaded : List UploadedFile) :
    (∃ rest, (submitTurn call state prompt uploaded).1.messages =
      state.messages ++ { role := "user", content := TurnContent.str prompt } :: rest) ∧
    (submitTurn call state prompt uploaded).2.2 =
      [(build_input_parts prompt (uploaded.map processImage),
        state.previous_response_id)] :=
  ⟨submitTurn_appends_user call state prompt uploaded,
   submitTurn_trace call state prompt uploaded⟩

/-- A remote call that succeeds with a response carrying no identifier, for
concrete instantiation. -/
def okCallNoId : List Message → Option String → Except String Response :=
  fun _ _ => Except.ok { output_text := "answer", id := none }

/-- Claim C8, counterexample: starting from a state whose stored token is
"resp_0", a successful response without a continuation identifier leaves the
stored `previous_response_id` at "resp_0" — it does not become absent as the
claim states (src/app.py line 203 only overwrites the token when the
response has an `id`). -/
theorem token_not_cleared_counterexample :
    (submitTurn okCallNoId { messages := [], previous_response_id := some "resp_0" }
        "hi" []).1.previous_response_id = some "resp_0" ∧
    (submitTurn okCallNoId { messages := [], previous_response_id := some "resp_0" }
        "hi" []).1.previous_response_id ≠ none :=
  ⟨by decide, by decide⟩

/-- Claim C8 as amended: when a successful response supplies no continuation
identifier, the stored `previous_response_id` is left unchanged (it is not
set to absent), so the next turn's remote call chains on the previously
stored token. -/
theorem submitTurn_token_kept_when_no_id
    (call : List Message → Option String → Except String Response)
    (state : SessionState) (prompt : String) (uploaded : List UploadedFile)
    (response : Response)
    (h : call (build_input_parts prompt (uploaded.map processImage))
      state.previous_response_id = Except.ok response)
    (hid : response.id = none) :
    (submitTurn call state prompt uploaded).1.previous_response_id =
      state.previous_response_id := by
  simp only [submitTurn, h, hid]

theorem submitTurn_token_kept_witness :
    (submitTurn okCallNoId { messages := [], previous_response_id := some "resp_0" }
        "q" []).1.previous_response_id = some "resp_0" :=
  submitTurn_token_kept_when_no_id okCallNoId
    { messages := [], previous_response_id := some "resp_0" } "q" []
    { output_text := "answer", id := none } rfl rfl

/-- Python truthiness of an optional string: `None` and the empty string are
falsy, as probed by `if not OPENAI_API_KEY` (src/app.py lines 40-43). -/
def pyTruthy (s : Option String) : Bool :=
  match s with
  | none => false
  | some t => t != ""

/-- The startup warning block (src/app.py lines 33-43): after reading the
two configuration values, emit one visible warning per missing value and
continue. -/
def startupWarnings (apiKey vectorStoreId : Option String) : List String :=
  (if pyTruthy apiKey then [] else ["OPENAI_API_KEY is not set"]) ++
  (if pyTruthy vectorStoreId then [] else ["VECTOR_STORE_ID is not set"])

/-- Modelled from the spec: the remote completion collaborator behind
`client.responses.create` is not part of src/app.py. Per spec sections 6 and
7, a remote call attempted while the API credential or the vector-store
identifier is missing fails with an authentication/config error; otherwise
the provider produces its response (here the environment's `respond`). -/
def remoteCallChecked (apiKey vectorStoreId : Option String)
    (respond : List Message → Option String → Response)
    (parts : List Message) (tok : Option String) : Except String Response :=
  if pyTruthy apiKey && pyTruthy vectorStoreId then Except.ok (respond parts tok)
  else Except.error "authentication/config error"

/-- Claim C9: when either required configuration value is missing at
startup, the startup code still completes (the warning block is a total
function), emitting one visible warning for each missing value, and the
failure is deferred: any remote call attempted under that configuration
fails with an authentication/config error instead. -/
theorem missing_config_warns_and_defers (apiKey vectorStoreId : Option String)
    (h : pyTruthy apiKey = false ∨ pyTruthy vectorStoreId = false) :
    (pyTruthy apiKey = false →
      "OPENAI_API_KEY is not set" ∈ startupWarnings apiKey vectorStoreId) ∧
    (pyTruthy vectorStoreId = false →
      "VECTOR_STORE_ID is not set" ∈ startupWarnings apiKey vectorStoreId) ∧
    startupWarnings apiKey vectorStoreId ≠ [] ∧
    ∀ (respond : List Message → Option String → Response)
      (parts : List Message) (tok : Option String),
      remoteCallChecked apiKey vectorStoreId respond parts tok =
        Except.error "authentication/config error" := by
  refine ⟨?_, ?_, ?_, ?_⟩
  · intro hk
    simp [startupWarnings, hk]
  · intro hv
    simp [startupWarnings, hv]
  · rcases h with hk | hv
    · simp [startupWarnings, hk]
    · simp [startupWarnings, hv]
  · intro respond parts tok
    rcases h with hk | hv
    · simp [remoteCallChecked, hk]
    · simp [remoteCallChecked, hv]

theorem missing_config_witness :
    "OPENAI_API_KEY is not set" ∈ startupWarnings none (some "vs_123") ∧
    remoteCallChecked none (some "vs_123")
        (fun _ _ => { output_text := "", id := none }) [] none =
      Except.error "authentication/config error" := by
  have h := missing_config_warns_and_defers none (some "vs_123") (Or.inl rfl)
  exact ⟨h.1 rfl, h.2.2.2 _ [] none⟩

/-- A stored turn whose role is "user" or "assistant" and whose content is a
plain string. -/
def plainStringTurn (t : Turn) : Prop :=
  (t.role = "user" ∨ t.role = "assistant") ∧ ∃ s, t.content = TurnContent.str s

/-- Claim C10: if every stored turn has role "user" or "assistant" and a
plain-string content, then after a submission (whatever the remote call's
outcome) and after a reset every stored turn still does; moreover every turn
of the new history is either an old one, the new user turn carrying the raw
untrimmed prompt as a string, or the new assistant turn carrying the
extracted output text as a string — so uploaded images never enter stored
history. -/
theorem history_plain_string_invariant
    (call : List Message → Option String → Except String Response)
    (state : SessionState) (prompt : String) (uploaded : List UploadedFile)
    (h : ∀ t ∈ state.messages, plainStringTurn t) :
    (∀ t ∈ (submitTurn call state prompt uploaded).1.messages, plainStringTurn t) ∧
    (∀ t ∈ (submitTurn call state prompt uploaded).1.messages,
      t ∈ state.messages ∨
      t = { role := "user", content := TurnContent.str prompt } ∨
      ∃ s, (submitTurn call state prompt uploaded).2.1 = SubmitOutcome.success s ∧
        t = { role := "assistant", content := TurnContent.str s }) ∧
    (∀ t ∈ (reset state).messages, plainStringTurn t) := by
  have hshape := submitTurn_messages_shape call state prompt uploaded
  refine ⟨?_, ?_, ?_⟩
  · intro t ht
    rcases hshape with hs | ⟨s, _, hs⟩ <;> rw [hs] at ht
    · rcases List.mem_append.mp ht with h1 | h1
      · exact h t h1
      · simp only [List.mem_singleton] at h1
        subst h1
        exact ⟨Or.inl rfl, ⟨prompt, rfl⟩⟩
    · rcases List.mem_append.mp ht with h1 | h1
      · exact h t h1
      · simp only [List.mem_cons, List.mem_singleton, List.not_mem_nil, or_false] at h1
        rcases h1 with h1 | h1 <;> subst h1
        · exact ⟨Or.inl rfl, ⟨prompt, rfl⟩⟩
        · exact ⟨Or.inr rfl, ⟨s, rfl⟩⟩
  · intro t ht
    rcases hshape with hs | ⟨s, hout, hs⟩ <;> rw [hs] at ht
    · rcases List.mem_append.mp ht with h1 | h1
      · exact Or.inl h1
      · simp only [List.mem_singleton] at h1
        subst h1
        exact Or.inr (Or.inl rfl)
    · rcases List.mem_append.mp ht with h1 | h1
      · exact Or.inl h1
      · simp only [List.mem_cons, List.mem_singleton, List.not_mem_nil, or_false] at h1
        rcases h1 with h1 | h1 <;> subst h1
        · exact Or.inr (Or.inl rfl)
        · exact Or.inr (Or.inr ⟨s, hout, rfl⟩)
  · intro t ht
    simp [reset] at ht

theorem history_plain_string_invariant_witness :
    plainStringTurn { role := "assistant", content := TurnContent.str "ans" } := by
  have h := history_plain_string_invariant okCallC2
    { messages := [], previous_response_id := none } "hi" [] (by simp)
  exact h.1 _ (by decide)
